import Mathlib

/-!
Verification of the Karwa banner bot (bot.py, handlers.py, admin_handlers.py,
database.py) against its natural-language specification.

The embedding is shallow: the sqlite tables of database.py are finite lists of
rows, the in-memory per-user session dictionary of bot.py is a map from user
identifiers to optional session records, and the temporary-file directory is
the list of currently existing file paths.  Handlers are pure functions from
these states to new states plus the list of user-visible actions they emit;
the generation backend is a parameter describing its outcome.

Two pieces of Python runtime behaviour are modelled explicitly because the
code depends on them:

1. sqlite3 date round-trip.  database.py opens its connection without
   detect_types, and binds datetime.date parameters, which the default sqlite3
   adapter serialises to ISO strings; reading the DATE column therefore yields
   a str, never a datetime.date.  Values that flow through the daily_usage
   table are modelled by the type PyVal below, and the Python equality test
   between such a value and a fresh datetime.date by pyEq: equality between
   values of the two unrelated built-in types str and datetime.date is always
   False in Python (both __eq__ methods return NotImplemented and the fallback
   compares identity).

2. handlers.py line 554 reads self.gemini, but BotHandlers.__init__ assigns
   only self.bot, self.db and self.openrouter, and no other code assigns a
   gemini attribute; the attribute lookup raises AttributeError before any
   backend call, landing in the except-branch of _handle_generate_text.
-/

/-- Calendar date as held by a Python datetime.date object. -/
structure PyDate where
  year : Nat
  month : Nat
  day : Nat
deriving DecidableEq, Repr

def pad2 (n : Nat) : String :=
  if n < 10 then "0" ++ toString n else toString n

/-- ISO format used by the default sqlite3 adapter for datetime.date. -/
def PyDate.iso (d : PyDate) : String :=
  toString d.year ++ "-" ++ pad2 d.month ++ "-" ++ pad2 d.day

/-- Dynamically typed Python value as it appears in the daily_usage date
column: either a str (what sqlite3 returns for the TEXT-stored column) or a
datetime.date (what the code builds with date.today()). -/
inductive PyVal where
  | str (s : String)
  | date (d : PyDate)
deriving DecidableEq, Repr

/-- Python equality (==): values of the same built-in type compare
structurally; a str and a datetime.date are never equal (their __eq__
methods return NotImplemented and the fallback is identity comparison). -/
def pyEq : PyVal → PyVal → Bool
  | .str a, .str b => a == b
  | .date a, .date b => a == b
  | _, _ => false

/-- What sqlite3 stores (and later returns) for a bound datetime.date
parameter: the ISO string produced by the default adapter. -/
def sqlDate (d : PyDate) : PyVal := .str d.iso

/-- OWNER_USER_ID environment default used throughout database.py. -/
def owner_id : Int := 6942195606

/-- Row of the users_allowed table (added_date omitted: it only orders the
user listing and no claim depends on the ordering). -/
structure UserRow where
  user_id : Int
  username : Option String
  added_by : Int
  is_owner : Bool
deriving DecidableEq, Repr

/-- Row of the daily_usage table.  The date column holds whatever sqlite3
returns, hence PyVal. -/
structure DailyRow where
  user_id : Int
  last_generation_date : PyVal
  generations_count : Int
deriving DecidableEq, Repr

/-- Row of the generation_logs table. -/
structure LogRow where
  user_id : Int
  command_used : String
  output_type : String
  prompt_used : Option String
deriving DecidableEq, Repr

/-- The three tables managed by DatabaseManager. -/
structure DB where
  users_allowed : List UserRow
  daily_usage : List DailyRow
  generation_logs : List LogRow
deriving DecidableEq, Repr

/-- database.py is_user_allowed: membership in users_allowed. -/
def is_user_allowed (db : DB) (uid : Int) : Bool :=
  db.users_allowed.any (fun r => r.user_id == uid)

/-- SELECT of the users_allowed row with the given primary key. -/
def find_user (db : DB) (uid : Int) : Option UserRow :=
  db.users_allowed.find? (fun r => r.user_id == uid)

/-- SELECT of the daily_usage row with the given primary key. -/
def find_daily (db : DB) (uid : Int) : Option DailyRow :=
  db.daily_usage.find? (fun r => r.user_id == uid)

/-- database.py add_user: INSERT, returning False on the primary-key
IntegrityError when the user already exists. -/
def add_user (db : DB) (uid : Int) (uname : String) (addedBy : Int) : Bool × DB :=
  if db.users_allowed.any (fun r => r.user_id == uid) then (false, db)
  else (true, { db with users_allowed := db.users_allowed ++ [⟨uid, some uname, addedBy, false⟩] })

/-- database.py remove_user: returns False without touching anything when the
stored row is flagged is_owner; otherwise deletes the users_allowed row and
the daily_usage row and returns True. -/
def remove_user (db : DB) (uid : Int) : Bool × DB :=
  let deleted : DB :=
    { db with
        users_allowed := db.users_allowed.filter (fun q => q.user_id != uid),
        daily_usage := db.daily_usage.filter (fun q => q.user_id != uid) }
  match find_user db uid with
  | some r => if r.is_owner then (false, db) else (true, deleted)
  | none => (true, deleted)

/-- database.py get_all_users (the ORDER BY added_date DESC only permutes the
rows; membership, which is all the claims use, is unaffected). -/
def get_all_users (db : DB) : List UserRow :=
  db.users_allowed

/-- Dictionary returned by can_user_generate.  A field of value none models a
key that the returned dict does not contain at all. -/
structure GenStatus where
  can_generate : Bool
  is_owner : Option Bool := none
  remaining : Int
  last_reset : Option PyVal := none
deriving DecidableEq, Repr

/-- database.py can_user_generate, including its write-backs: inserts a fresh
daily_usage row for a first-time user, and resets the counter when the stored
date is not Python-equal to today (which, the stored value being an ISO str
and today a datetime.date, is every time the row exists). -/
def can_user_generate (db : DB) (uid : Int) (today : PyDate) : GenStatus × DB :=
  if uid == owner_id then
    ({ can_generate := true, is_owner := some true, remaining := 999 }, db)
  else
    match find_daily db uid with
    | none =>
      ({ can_generate := true, remaining := 1, last_reset := some (.date today) },
       { db with daily_usage := db.daily_usage ++ [⟨uid, sqlDate today, 0⟩] })
    | some usage =>
      if !(pyEq usage.last_generation_date (.date today)) then
        ({ can_generate := true, remaining := 1, last_reset := some (.date today) },
         { db with daily_usage := db.daily_usage.map (fun r =>
             if r.user_id == uid then
               { r with last_generation_date := sqlDate today, generations_count := 0 }
             else r) })
      else if usage.generations_count >= 1 then
        ({ can_generate := false, remaining := 0,
           last_reset := some usage.last_generation_date }, db)
      else
        ({ can_generate := true, remaining := 1 - usage.generations_count,
           last_reset := some usage.last_generation_date }, db)

/-- database.py record_generation: appends an audit log row and, for
non-owners, increments the existing daily_usage counter, stamping today
(stored by sqlite as the ISO string). -/
def record_generation (db : DB) (uid : Int) (today : PyDate)
    (cmd outputType : String) (prompt : Option String) : DB :=
  let db1 := { db with generation_logs := db.generation_logs ++ [⟨uid, cmd, outputType, prompt⟩] }
  if uid != owner_id then
    { db1 with daily_usage := db1.daily_usage.map (fun r =>
        if r.user_id == uid then
          { r with generations_count := r.generations_count + 1,
                   last_generation_date := sqlDate today }
        else r) }
  else db1

/-- database.py get_user_daily_count: stored counter, 0 when no row. -/
def get_user_daily_count (db : DB) (uid : Int) : Int :=
  match find_daily db uid with
  | some r => r.generations_count
  | none => 0

/-- admin_handlers.py _show_remove_user_list: the removable set, users with
the owner filtered out. -/
def removable_users (db : DB) : List UserRow :=
  (get_all_users db).filter (fun u => !u.is_owner)

/-- admin_handlers.py _show_remove_user_list: identifiers put on the
remove-confirm buttons of the first page (ten users); the inner is_owner
re-check turns an owner row into an inert button carrying no identifier. -/
def remove_list_buttons (db : DB) : List Int :=
  ((removable_users db).take 10).filterMap
    (fun u => if u.is_owner then none else some u.user_id)

/-- Per-user session dictionary of bot.py.  A field of value none models a
key that is absent from the dict (or bound to Python None, which every use
site treats the same way through .get truthiness). -/
structure Session where
  command : Option String := none
  step : Option String := none
  aspect : Option String := none
  output_type : Option String := none
  text_input : Option String := none
  image_path : Option String := none
  image_file_id : Option String := none
  custom_prompt : Option String := none
  prompt_type : Option String := none
  last_activity : Option Nat := none
deriving DecidableEq, Repr

/-- The fresh dict installed by get_user_session. -/
def emptySession : Session := {}

/-- State owned by KarwaBannerBot: the user_sessions dictionary and the set of
currently existing temporary image files (what os.path.exists sees). -/
structure BotState where
  sessions : Int → Option Session
  files : List String

def setSession (st : BotState) (uid : Int) (s : Session) : BotState :=
  { st with sessions := fun x => if x = uid then some s else st.sessions x }

def delSession (st : BotState) (uid : Int) : BotState :=
  { st with sessions := fun x => if x = uid then none else st.sessions x }

/-- os.remove of a temporary file. -/
def removeFile (st : BotState) (p : String) : BotState :=
  { st with files := st.files.filter (fun q => q != p) }

/-- The cleanup idiom used throughout bot.py and handlers.py:
if session.get("image_path") and os.path.exists(path): os.remove(path). -/
def releaseIfExists (st : BotState) (ip : Option String) : BotState :=
  match ip with
  | some p => if p ∈ st.files then removeFile st p else st
  | none => st

/-- bot.py get_user_session: creates an empty session when absent; when the
stored session has a last_activity older than 600 seconds, removes its
temporary file, replaces it with a fresh empty session and returns that;
otherwise returns the stored session unchanged. -/
def get_user_session (now : Nat) (st : BotState) (uid : Int) : Session × BotState :=
  match st.sessions uid with
  | none => (emptySession, setSession st uid emptySession)
  | some s =>
    match s.last_activity with
    | some t =>
      if 600 < now - t then
        let st1 := releaseIfExists st s.image_path
        (emptySession, setSession st1 uid emptySession)
      else (s, st)
    | none => (s, st)

/-- bot.py clear_user_session: deletes the dictionary entry if present; it
does not touch any temporary file. -/
def clear_user_session (st : BotState) (uid : Int) : BotState :=
  match st.sessions uid with
  | some _ => delSession st uid
  | none => st

/-- User-visible outputs the handlers emit, coarsened to the distinctions the
claims are about. -/
inductive BotAction where
  | accessDenied
  | rateLimit
  | showFormat
  | askText
  | processingMsg
  | photoResult
  | genFailed
  | techError
  | enhanceError
  | deleteMsg
  | whatNext
deriving DecidableEq, Repr

/-- Outcome of a call into the generation backend: an image, a None result,
or a raised exception. -/
inductive BackendResult where
  | image
  | noImage
  | raises
deriving DecidableEq, Repr

/-- Which message handler bot.py message_handler dispatches to. -/
inductive Route where
  | asciiText
  | imageCustomPrompt
  | generateText
  | manageAddUser
deriving DecidableEq, Repr

/-- handlers.py _handle_cancel: removes the temporary file of the current
session if it exists, clears the session, deletes the message and sends the
neutral next-steps message. -/
def handle_cancel (now : Nat) (st : BotState) (uid : Int) : BotState × List BotAction :=
  let gs := get_user_session now st uid
  let st2 := releaseIfExists gs.2 gs.1.image_path
  (clear_user_session st2 uid, [.deleteMsg, .whatNext])

/-- bot.py _check_access_and_limit: authorization first (no quota lookup at
all for a disallowed user), then can_user_generate. -/
def check_access_and_limit (db : DB) (uid : Int) (today : PyDate) : Bool × DB × List BotAction :=
  if !(is_user_allowed db uid) then (false, db, [.accessDenied])
  else
    let res := can_user_generate db uid today
    if !(res.1.can_generate) then (false, res.2, [.rateLimit])
    else (true, res.2, [])

/-- bot.py ascii_command: access-and-limit gate, then immediately installs
the fresh ascii session and shows the format keyboard. -/
def ascii_command (db : DB) (st : BotState) (uid : Int) (today : PyDate) :
    DB × BotState × List BotAction :=
  let c := check_access_and_limit db uid today
  if !c.1 then (c.2.1, st, c.2.2)
  else (c.2.1,
        setSession st uid { command := some "ascii", step := some "awaiting_aspect_ratio" },
        c.2.2 ++ [.showFormat])

/-- bot.py image_command: access-and-limit gate, then only shows the format
keyboard (the session is created later by the image_banner callback). -/
def image_command (db : DB) (st : BotState) (uid : Int) (today : PyDate) :
    DB × BotState × List BotAction :=
  let c := check_access_and_limit db uid today
  if !c.1 then (c.2.1, st, c.2.2)
  else (c.2.1, st, c.2.2 ++ [.showFormat])

/-- bot.py generate_command: access-and-limit gate, then only shows the
format keyboard. -/
def generate_command (db : DB) (st : BotState) (uid : Int) (today : PyDate) :
    DB × BotState × List BotAction :=
  let c := check_access_and_limit db uid today
  if !c.1 then (c.2.1, st, c.2.2)
  else (c.2.1, st, c.2.2 ++ [.showFormat])

/-- bot.py callback_handler, image_banner branch (handled first, before any
session or database check): unconditionally installs a fresh image session
and shows the aspect-ratio keyboard.  The database is not consulted. -/
def callback_image_banner (st : BotState) (uid : Int) : BotState × List BotAction :=
  (setSession st uid { command := some "image", step := some "awaiting_aspect_ratio" },
   [.showFormat])

/-- Result of running one message handler. -/
structure HandlerOut where
  db : DB
  st : BotState
  acts : List BotAction
  backendInvoked : Bool

/-- handlers.py _handle_ascii_text: mutates the stored session to the
processing step, always calls the backend (no quota re-check occurs anywhere
in the function), records and clears on success, and on a None result or an
exception leaves the mutated session in the store. -/
def handle_ascii_text (db : DB) (st : BotState) (uid : Int) (s : Session)
    (text : String) (today : PyDate) (backend : BackendResult) : HandlerOut :=
  let outType := if s.aspect == some "3:1" then "banner_3_1" else "pfp_1_1"
  let s1 := { s with text_input := some text, step := some "processing",
                     output_type := some outType }
  let st1 := setSession st uid s1
  match backend with
  | .image =>
    { db := record_generation db uid today "ascii" outType (some text),
      st := clear_user_session st1 uid,
      acts := [.processingMsg, .photoResult], backendInvoked := true }
  | .noImage =>
    { db := db, st := st1, acts := [.processingMsg, .genFailed], backendInvoked := true }
  | .raises =>
    { db := db, st := st1, acts := [.processingMsg, .techError], backendInvoked := true }

/-- handlers.py _handle_generate_text: the lookup of self.gemini (assigned
nowhere: BotHandlers.__init__ sets only bot, db and openrouter) raises
AttributeError before any backend call, so control always lands in the
except-branch: technical-error message, session untouched, nothing
recorded. -/
def handle_generate_text (db : DB) (st : BotState) (_uid : Int) (_s : Session)
    (_text : String) : HandlerOut :=
  { db := db, st := st, acts := [.processingMsg, .techError], backendInvoked := false }

/-- handlers.py _process_image_enhancement: try-branch raises when the file
is missing, otherwise calls the backend; whatever happens, the finally-block
removes the temporary file (if it exists) and clears the session. -/
def process_image_enhancement (db : DB) (st : BotState) (uid : Int) (s : Session)
    (today : PyDate) (backend : BackendResult) : HandlerOut :=
  let cleanup : BotState → BotState := fun stx =>
    clear_user_session (releaseIfExists stx s.image_path) uid
  match s.image_path with
  | none =>
    { db := db, st := cleanup st, acts := [.enhanceError], backendInvoked := false }
  | some p =>
    if p ∈ st.files then
      match backend with
      | .image =>
        { db := record_generation db uid today "image" (s.output_type.getD "")
                  (some (s.custom_prompt.getD "Auto prompt")),
          st := cleanup st, acts := [.photoResult], backendInvoked := true }
      | .noImage =>
        { db := db, st := cleanup st, acts := [.enhanceError], backendInvoked := true }
      | .raises =>
        { db := db, st := cleanup st, acts := [.enhanceError], backendInvoked := true }
    else
      { db := db, st := cleanup st, acts := [.enhanceError], backendInvoked := false }

/-- bot.py message_handler dispatch chain for a text message, including the
legacy fall-through branches; none when the function returns without calling
a handler. -/
def route_message (s : Session) : Option Route :=
  match s.command with
  | none => none
  | some c =>
    if c == "ascii" && s.step == some "awaiting_text" then some .asciiText
    else if c == "image" && s.step == some "awaiting_custom_prompt" then some .imageCustomPrompt
    else if c == "generate" && s.step == some "awaiting_text" then some .generateText
    else if c == "manage_add_user" then some .manageAddUser
    else if c == "ascii" then some .asciiText
    else if c == "image_custom" then some .imageCustomPrompt
    else if c == "generate" then some .generateText
    else none

/-- bot.py message_handler: fetches the session (with lazy expiry) and
decides which handler, if any, consumes the text message. -/
def message_handler (now : Nat) (st : BotState) (uid : Int) : BotState × Option Route :=
  let gs := get_user_session now st uid
  (gs.2, route_message gs.1)

/-- Concrete date used by witnesses and counterexamples. -/
def dOct : PyDate := ⟨2026, 10, 12⟩

/-- Seeded owner row. -/
def ownerRow : UserRow := ⟨owner_id, some "Escobaar100x", owner_id, true⟩

/-- An ordinary allowed user. -/
def u7Row : UserRow := ⟨7, some "u7", owner_id, false⟩

/-- Database holding only the seeded owner. -/
def dbOwnerOnly : DB := ⟨[ownerRow], [], []⟩

/-- Database with the owner and allowed user 7, no usage yet. -/
def dbU7 : DB := ⟨[ownerRow, u7Row], [], []⟩

/-- Database where user 7 already generated once today (as sqlite actually
stores it: the ISO string). -/
def dbExhausted : DB := ⟨[ownerRow, u7Row], [⟨7, sqlDate dOct, 1⟩], []⟩

/-- Hypothetical database where the stored date compares equal to today (a
datetime.date value in the column), the only way the denial branch of
can_user_generate can fire. -/
def dbDenied : DB := ⟨[ownerRow, u7Row], [⟨7, PyVal.date dOct, 1⟩], []⟩

/-- Empty bot state. -/
def stEmpty : BotState := ⟨fun _ => none, []⟩

/-- Session of user 7 waiting for ascii text. -/
def sAwaitText : Session :=
  { command := some "ascii", step := some "awaiting_text", aspect := some "3:1",
    last_activity := some 0 }

/-- Session of user 7 in the image workflow waiting for a photo. -/
def sAwaitImage : Session :=
  { command := some "image", step := some "awaiting_image", aspect := some "3:1",
    last_activity := some 0 }

/-- Session holding a transient image file. -/
def sWithFile : Session :=
  { command := some "image", step := some "awaiting_prompt_type", aspect := some "3:1",
    output_type := some "banner_3_1", image_path := some "f.jpg", last_activity := some 0 }

/-- Bot state with user 7 in session sWithFile and the file on disk. -/
def stWithFile : BotState := ⟨fun x => if x = 7 then some sWithFile else none, ["f.jpg"]⟩

/-- Bot state with user 7 in session sAwaitText. -/
def stAwaitText : BotState := ⟨fun x => if x = 7 then some sAwaitText else none, []⟩

/-- Bot state with user 7 in session sAwaitImage. -/
def stAwaitImage : BotState := ⟨fun x => if x = 7 then some sAwaitImage else none, []⟩

/-! Helper lemmas about the session store. -/

theorem setSession_sessions_self (st : BotState) (uid : Int) (s : Session) :
    (setSession st uid s).sessions uid = some s := by
  simp [setSession]

theorem setSession_files (st : BotState) (uid : Int) (s : Session) :
    (setSession st uid s).files = st.files := rfl

theorem clear_sessions_self (st : BotState) (uid : Int) :
    (clear_user_session st uid).sessions uid = none := by
  unfold clear_user_session
  cases h : st.sessions uid with
  | none => exact h
  | some s => simp [delSession]

theorem clear_files (st : BotState) (uid : Int) :
    (clear_user_session st uid).files = st.files := by
  unfold clear_user_session
  cases h : st.sessions uid with
  | none => rfl
  | some s => rfl

theorem releaseIfExists_not_mem (st : BotState) (p : String) :
    p ∉ (releaseIfExists st (some p)).files := by
  unfold releaseIfExists removeFile
  by_cases h : p ∈ st.files <;> simp [h, List.mem_filter]

theorem releaseIfExists_sessions (st : BotState) (ip : Option String) :
    (releaseIfExists st ip).sessions = st.sessions := by
  unfold releaseIfExists removeFile
  cases ip with
  | none => rfl
  | some p => by_cases h : p ∈ st.files <;> simp [h]

theorem get_user_session_fresh (now : Nat) (st : BotState) (uid : Int) (s : Session)
    (h : st.sessions uid = some s)
    (hf : ∀ t, s.last_activity = some t → ¬ 600 < now - t) :
    get_user_session now st uid = (s, st) := by
  unfold get_user_session
  rw [h]
  cases hla : s.last_activity with
  | none => simp [hla]
  | some t => simp [hla, hf t hla]

theorem get_user_session_expired (now : Nat) (st : BotState) (uid : Int) (s : Session)
    (t : Nat) (h : st.sessions uid = some s) (hla : s.last_activity = some t)
    (hexp : 600 < now - t) :
    get_user_session now st uid
      = (emptySession, setSession (releaseIfExists st s.image_path) uid emptySession) := by
  unfold get_user_session
  rw [h]
  simp [hla, hexp]

/-- C6: get_user_session returns a stored session unchanged when its last
activity is at most 600 seconds old (or when it carries no activity stamp);
when the last activity is strictly more than 600 seconds old it removes the
session's temporary file, stores a fresh empty session and returns it. -/
theorem C6_session_expiry :
    (∀ now st uid s, st.sessions uid = some s →
        (∀ t, s.last_activity = some t → ¬ 600 < now - t) →
        get_user_session now st uid = (s, st)) ∧
    (∀ now st uid s t, st.sessions uid = some s → s.last_activity = some t →
        600 < now - t →
        (get_user_session now st uid).1 = emptySession ∧
        (get_user_session now st uid).2.sessions uid = some emptySession ∧
        (∀ p, s.image_path = some p → p ∉ (get_user_session now st uid).2.files)) := by
  refine ⟨get_user_session_fresh, ?_⟩
  intro now st uid s t h hla hexp
  rw [get_user_session_expired now st uid s t h hla hexp]
  refine ⟨rfl, setSession_sessions_self _ _ _, ?_⟩
  intro p hp
  rw [setSession_files, hp]
  exact releaseIfExists_not_mem st p

/-- C6 witness: a fresh session is returned unchanged; an expired session
with a temporary file is replaced by an empty one and the file is removed. -/
theorem C6_witness :
    get_user_session 100 stAwaitText 7 = (sAwaitText, stAwaitText) ∧
    ((get_user_session 1000 stWithFile 7).1 = emptySession ∧
     (get_user_session 1000 stWithFile 7).2.sessions 7 = some emptySession ∧
     "f.jpg" ∉ (get_user_session 1000 stWithFile 7).2.files) := by
  constructor
  · exact C6_session_expiry.1 100 stAwaitText 7 sAwaitText rfl
      (fun t ht => by
        simp only [sAwaitText, Option.some.injEq] at ht
        subst ht
        decide)
  · have h2 := C6_session_expiry.2 1000 stWithFile 7 sWithFile 0 rfl rfl (by decide)
    exact ⟨h2.1, h2.2.1, h2.2.2 "f.jpg" rfl⟩

/-- C8: a text message arriving while the session is in the ImageEnhance
workflow at the awaiting_image step is dispatched to no handler: the session
store is unchanged and the event is not routed into any workflow. -/
theorem C8_stale_text_event :
    ∀ now st uid s, st.sessions uid = some s →
      s.command = some "image" → s.step = some "awaiting_image" →
      (∀ t, s.last_activity = some t → ¬ 600 < now - t) →
      message_handler now st uid = (st, none) := by
  intro now st uid s h hcmd hstep hf
  have hr : route_message s = none := by
    unfold route_message
    rw [hcmd]
    simp [hstep]
  unfold message_handler
  rw [get_user_session_fresh now st uid s h hf]
  simp [hr]

/-- C8 witness: user 7 awaiting a photo sends text and nothing happens. -/
theorem C8_witness : message_handler 100 stAwaitImage 7 = (stAwaitImage, none) := by
  exact C8_stale_text_event 100 stAwaitImage 7 sAwaitImage rfl rfl rfl
    (fun t ht => by
      simp only [sAwaitImage, Option.some.injEq] at ht
      subst ht
      decide)

theorem clear_of_none (st : BotState) (uid : Int) (h : st.sessions uid = none) :
    clear_user_session st uid = st := by
  unfold clear_user_session
  rw [h]

theorem clear_setSession_empty (st : BotState) (uid : Int) (h : st.sessions uid = none) :
    clear_user_session (setSession st uid emptySession) uid = st := by
  unfold clear_user_session
  rw [setSession_sessions_self]
  unfold delSession setSession
  obtain ⟨sess, files⟩ := st
  simp only [BotState.mk.injEq]
  refine ⟨?_, trivial⟩
  funext x
  by_cases hx : x = uid
  · subst hx
    simp only at h
    simp [h]
  · simp [hx]

theorem handle_cancel_fst (now : Nat) (st : BotState) (uid : Int) :
    (handle_cancel now st uid).1
      = clear_user_session
          (releaseIfExists (get_user_session now st uid).2
            (get_user_session now st uid).1.image_path) uid := rfl

theorem handle_cancel_absent (now : Nat) (st : BotState) (uid : Int)
    (h : st.sessions uid = none) :
    handle_cancel now st uid = (st, [BotAction.deleteMsg, BotAction.whatNext]) := by
  have h1 : get_user_session now st uid = (emptySession, setSession st uid emptySession) := by
    unfold get_user_session
    rw [h]
  have e : handle_cancel now st uid
      = (clear_user_session
          (releaseIfExists (get_user_session now st uid).2
            (get_user_session now st uid).1.image_path) uid,
         [BotAction.deleteMsg, BotAction.whatNext]) := rfl
  rw [e, h1]
  simp only [Prod.fst, Prod.snd]
  rw [show emptySession.image_path = none from rfl]
  rw [show releaseIfExists (setSession st uid emptySession) none
        = setSession st uid emptySession from rfl]
  rw [clear_setSession_empty st uid h]

theorem handle_cancel_clears (now : Nat) (st : BotState) (uid : Int) :
    (handle_cancel now st uid).1.sessions uid = none := by
  rw [handle_cancel_fst]
  exact clear_sessions_self _ _

/-- C7 (amended): clear_user_session deletes the session entry without
touching the file store and is idempotent; the release of the transient
image file during cancellation is performed by the cancel handler before it
calls clear; cancelling with no session present is not an error and yields
the same externally visible outcome (unchanged state, same messages) as the
second of two consecutive cancels. -/
theorem C7_clear_and_cancel :
    (∀ st uid, (clear_user_session st uid).files = st.files ∧
        (clear_user_session st uid).sessions uid = none ∧
        clear_user_session (clear_user_session st uid) uid = clear_user_session st uid) ∧
    (∀ now st uid, st.sessions uid = none →
        handle_cancel now st uid = (st, [BotAction.deleteMsg, BotAction.whatNext])) ∧
    (∀ now now2 st uid,
        handle_cancel now2 (handle_cancel now st uid).1 uid
          = ((handle_cancel now st uid).1, [BotAction.deleteMsg, BotAction.whatNext])) ∧
    (∀ now st uid s p, st.sessions uid = some s →
        (∀ t, s.last_activity = some t → ¬ 600 < now - t) →
        s.image_path = some p →
        p ∉ (handle_cancel now st uid).1.files ∧
        (handle_cancel now st uid).1.sessions uid = none) := by
  refine ⟨?_, handle_cancel_absent, ?_, ?_⟩
  · intro st uid
    exact ⟨clear_files st uid, clear_sessions_self st uid,
      clear_of_none _ _ (clear_sessions_self st uid)⟩
  · intro now now2 st uid
    exact handle_cancel_absent now2 _ uid (handle_cancel_clears now st uid)
  · intro now st uid s p h hf hip
    have h1 := get_user_session_fresh now st uid s h hf
    constructor
    · rw [handle_cancel_fst, clear_files, h1]
      simp only [Prod.fst, Prod.snd]
      rw [hip]
      exact releaseIfExists_not_mem st p
    · rw [handle_cancel_fst]
      exact clear_sessions_self _ _

/-- C7 counterexample: with user 7 holding a session whose transient file
f.jpg exists, clear_user_session deletes the session entry but the file is
still present afterwards, refuting that clear releases the transient
resource before deleting the entry. -/
theorem C7_counterexample :
    stWithFile.sessions 7 = some sWithFile ∧
    sWithFile.image_path = some "f.jpg" ∧
    "f.jpg" ∈ stWithFile.files ∧
    (clear_user_session stWithFile 7).sessions 7 = none ∧
    "f.jpg" ∈ (clear_user_session stWithFile 7).files := by
  decide

/-- C7 witness: cancel on an absent session is a no-op with the standard
messages; cancel on a live session removes the transient file and the
session. -/
theorem C7_witness :
    handle_cancel 100 stEmpty 7 = (stEmpty, [BotAction.deleteMsg, BotAction.whatNext]) ∧
    ("f.jpg" ∉ (handle_cancel 100 stWithFile 7).1.files ∧
     (handle_cancel 100 stWithFile 7).1.sessions 7 = none) := by
  constructor
  · exact C7_clear_and_cancel.2.1 100 stEmpty 7 rfl
  · exact C7_clear_and_cancel.2.2.2 100 stWithFile 7 sWithFile "f.jpg" rfl
      (fun t ht => by
        simp only [sWithFile, Option.some.injEq] at ht
        subst ht
        decide) rfl

/-- C1 (amended): at the command entry points (/ascii, /image, /generate) a
user outside the allowed set gets exactly the access-denied action, the
database is untouched (so no quota lookup happened) and no session is
created; an allowed user whose quota check fails gets exactly the rate-limit
action and no session; the image_banner menu callback, however, which
callback_handler processes before any session or database check, installs a
session without consulting the database at all and emits no access-denied
action. -/
theorem C1_entry_authorization :
    (∀ db st uid today, is_user_allowed db uid = false →
        ascii_command db st uid today = (db, st, [BotAction.accessDenied]) ∧
        image_command db st uid today = (db, st, [BotAction.accessDenied]) ∧
        generate_command db st uid today = (db, st, [BotAction.accessDenied])) ∧
    (∀ db st uid today, is_user_allowed db uid = true →
        (can_user_generate db uid today).1.can_generate = false →
        ascii_command db st uid today
          = ((can_user_generate db uid today).2, st, [BotAction.rateLimit]) ∧
        image_command db st uid today
          = ((can_user_generate db uid today).2, st, [BotAction.rateLimit]) ∧
        generate_command db st uid today
          = ((can_user_generate db uid today).2, st, [BotAction.rateLimit])) ∧
    (∀ st uid, (callback_image_banner st uid).1.sessions uid
          = some { command := some "image", step := some "awaiting_aspect_ratio" } ∧
        (callback_image_banner st uid).2 = [BotAction.showFormat]) := by
  refine ⟨?_, ?_, ?_⟩
  · intro db st uid today h
    refine ⟨?_, ?_, ?_⟩ <;>
      simp [ascii_command, image_command, generate_command, check_access_and_limit, h]
  · intro db st uid today h hq
    refine ⟨?_, ?_, ?_⟩ <;>
      simp [ascii_command, image_command, generate_command, check_access_and_limit, h, hq]
  · intro st uid
    exact ⟨setSession_sessions_self st uid _, rfl⟩

/-- C1 counterexample: user 42 is not in the allowed set of a database
holding only the owner, yet the image_banner menu callback installs a
session for 42 and emits no access-denied action. -/
theorem C1_counterexample :
    is_user_allowed dbOwnerOnly 42 = false ∧
    (callback_image_banner stEmpty 42).1.sessions 42
      = some { command := some "image", step := some "awaiting_aspect_ratio" } ∧
    BotAction.accessDenied ∉ (callback_image_banner stEmpty 42).2 := by
  decide

/-- C1 witness: a concrete denied command entry and a concrete rate-limited
command entry. -/
theorem C1_witness :
    ascii_command dbOwnerOnly stEmpty 42 dOct = (dbOwnerOnly, stEmpty, [BotAction.accessDenied]) ∧
    ascii_command dbDenied stEmpty 7 dOct
      = ((can_user_generate dbDenied 7 dOct).2, stEmpty, [BotAction.rateLimit]) := by
  constructor
  · exact (C1_entry_authorization.1 dbOwnerOnly stEmpty 42 dOct (by decide)).1
  · exact (C1_entry_authorization.2.1 dbDenied stEmpty 7 dOct (by decide) (by decide)).1

/-- C2 (amended): the text-consuming handlers perform no quota
re-validation at consumption time: the ascii handler always invokes the
backend and never emits an access or quota denial, whatever the database
says, and the text-to-image handler never reaches the backend at all (the
missing gemini attribute raises first), replying with the technical error
and leaving both database and session store unchanged. -/
theorem C2_no_quota_recheck :
    (∀ db st uid s text today backend,
        (handle_ascii_text db st uid s text today backend).backendInvoked = true ∧
        BotAction.rateLimit ∉ (handle_ascii_text db st uid s text today backend).acts ∧
        BotAction.accessDenied ∉ (handle_ascii_text db st uid s text today backend).acts) ∧
    (∀ db st uid s text,
        handle_generate_text db st uid s text
          = ⟨db, st, [BotAction.processingMsg, BotAction.techError], false⟩) := by
  constructor
  · intro db st uid s text today backend
    cases backend <;> simp [handle_ascii_text]
  · intro db st uid s text
    rfl

/-- C2 counterexample: user 7 has already generated today (stored count 1),
yet the ascii text handler invokes the backend with no quota denial. -/
theorem C2_counterexample :
    get_user_daily_count dbExhausted 7 = 1 ∧
    (handle_ascii_text dbExhausted stAwaitText 7 sAwaitText "KARWA" dOct
        BackendResult.image).backendInvoked = true ∧
    BotAction.rateLimit ∉
      (handle_ascii_text dbExhausted stAwaitText 7 sAwaitText "KARWA" dOct
        BackendResult.image).acts := by
  decide

/-- C3: the daily limit is never enforced.  A fresh non-owner user is
allowed with remaining 1; after record_generation the stored counter is 1
for today, but the next can_user_generate call still returns allowed,
because the date read back from sqlite is an ISO string which Python never
considers equal to a datetime.date, so the lazy-rollover branch resets the
counter instead of denying. -/
theorem C3_limit_not_enforced :
    (can_user_generate dbU7 7 dOct).1.can_generate = true ∧
    (can_user_generate dbU7 7 dOct).1.remaining = 1 ∧
    get_user_daily_count
      (record_generation (can_user_generate dbU7 7 dOct).2 7 dOct "ascii" "banner_3_1"
        (some "KARWA")) 7 = 1 ∧
    (can_user_generate
      (record_generation (can_user_generate dbU7 7 dOct).2 7 dOct "ascii" "banner_3_1"
        (some "KARWA")) 7 dOct).1.can_generate = true := by
  decide

theorem cleanup_files_not_mem (st : BotState) (uid : Int) (p : String) :
    p ∉ (clear_user_session (releaseIfExists st (some p)) uid).files := by
  rw [clear_files]
  exact releaseIfExists_not_mem st p

theorem process_image_enhancement_failure (db : DB) (st : BotState) (uid : Int)
    (s : Session) (today : PyDate) (backend : BackendResult)
    (hb : backend ≠ BackendResult.image) :
    (process_image_enhancement db st uid s today backend).st
        = clear_user_session (releaseIfExists st s.image_path) uid ∧
    (process_image_enhancement db st uid s today backend).db = db := by
  unfold process_image_enhancement
  cases hip : s.image_path with
  | none => simp
  | some p0 =>
    by_cases hf : p0 ∈ st.files
    · cases backend with
      | image => exact absurd rfl hb
      | noImage => simp [hf]
      | raises => simp [hf]
    · simp [hf]

/-- C4 (amended): in the image-enhancement workflow every failure class is
terminal (the finally-block removes the temporary file and clears the
session, and the database is untouched); in the ASCII workflow a backend
failure, whether a None result or an exception, leaves the mutated session
in the store at the processing step; the text-to-image handler leaves the
session store entirely unchanged on its (unconditional) failure. -/
theorem C4_failure_cleanup :
    (∀ db st uid s today backend, backend ≠ BackendResult.image →
        (process_image_enhancement db st uid s today backend).st.sessions uid = none ∧
        (∀ p, s.image_path = some p →
            p ∉ (process_image_enhancement db st uid s today backend).st.files) ∧
        (process_image_enhancement db st uid s today backend).db = db) ∧
    (∀ db st uid s text today,
        (handle_ascii_text db st uid s text today BackendResult.noImage).st.sessions uid
          = some { s with text_input := some text, step := some "processing",
                          output_type := some
                            (if s.aspect == some "3:1" then "banner_3_1" else "pfp_1_1") } ∧
        (handle_ascii_text db st uid s text today BackendResult.raises).st.sessions uid
          = some { s with text_input := some text, step := some "processing",
                          output_type := some
                            (if s.aspect == some "3:1" then "banner_3_1" else "pfp_1_1") }) ∧
    (∀ db st uid s text, (handle_generate_text db st uid s text).st = st) := by
  refine ⟨?_, ?_, ?_⟩
  · intro db st uid s today backend hb
    obtain ⟨h1, h2⟩ := process_image_enhancement_failure db st uid s today backend hb
    refine ⟨?_, ?_, h2⟩
    · rw [h1]
      exact clear_sessions_self _ _
    · intro p hp
      rw [h1, hp]
      exact cleanup_files_not_mem st uid p
  · intro db st uid s text today
    constructor <;> simp [handle_ascii_text, setSession_sessions_self]
  · intro db st uid s text
    rfl

/-- C4 counterexample: a backend failure (None result) in the ASCII workflow
emits the failure message but the session of user 7 is still present
afterwards, refuting that every generation workflow clears the session on
every failure class. -/
theorem C4_counterexample :
    BotAction.genFailed ∈ (handle_ascii_text dbU7 stAwaitText 7 sAwaitText "K" dOct
      BackendResult.noImage).acts ∧
    ((handle_ascii_text dbU7 stAwaitText 7 sAwaitText "K" dOct
      BackendResult.noImage).st.sessions 7).isSome = true := by
  decide

/-- C4 witness: an image-enhancement failure clears the session and the
temporary file of user 7. -/
theorem C4_witness :
    (process_image_enhancement dbU7 stWithFile 7 sWithFile dOct
        BackendResult.noImage).st.sessions 7 = none ∧
    "f.jpg" ∉ (process_image_enhancement dbU7 stWithFile 7 sWithFile dOct
        BackendResult.noImage).st.files := by
  have h := C4_failure_cleanup.1 dbU7 stWithFile 7 sWithFile dOct BackendResult.noImage
    (by decide)
  exact ⟨h.1, h.2.1 "f.jpg" rfl⟩

/-- C5: the owner can never be removed: every user in the removable list is
a non-owner, every identifier put on a remove button comes from a non-owner
row, and remove_user on any identifier whose stored row is flagged is_owner
returns false and leaves the database unchanged. -/
theorem C5_owner_protected :
    (∀ db u, u ∈ removable_users db → u.is_owner = false) ∧
    (∀ db i, i ∈ remove_list_buttons db →
        ∃ u, u ∈ removable_users db ∧ u.is_owner = false ∧ u.user_id = i) ∧
    (∀ db uid r, find_user db uid = some r → r.is_owner = true →
        remove_user db uid = (false, db)) := by
  refine ⟨?_, ?_, ?_⟩
  · intro db u hu
    simp only [removable_users, get_all_users, List.mem_filter] at hu
    simpa using hu.2
  · intro db i hi
    simp only [remove_list_buttons, List.mem_filterMap] at hi
    obtain ⟨u, hu, hif⟩ := hi
    cases howner : u.is_owner
    · rw [howner] at hif
      simp only [Bool.false_eq_true, if_false, Option.some.injEq] at hif
      exact ⟨u, List.take_subset _ _ hu, howner, hif⟩
    · rw [howner] at hif
      simp at hif
  · intro db uid r hf ho
    simp [remove_user, hf, ho]

/-- C5 witness: user 7 is removable and is a non-owner, the button built for
it carries its identifier, and removing the owner identifier directly fails
and changes nothing. -/
theorem C5_witness :
    u7Row.is_owner = false ∧
    (∃ u, u ∈ removable_users dbU7 ∧ u.is_owner = false ∧ u.user_id = 7) ∧
    remove_user dbOwnerOnly owner_id = (false, dbOwnerOnly) := by
  refine ⟨?_, ?_, ?_⟩
  · exact C5_owner_protected.1 dbU7 u7Row (by decide)
  · exact C5_owner_protected.2.1 dbU7 7 (by decide)
  · exact C5_owner_protected.2.2 dbOwnerOnly owner_id ownerRow (by decide) rfl

/-- C9: the dict returned by can_user_generate carries the is_owner key only
in the owner branch: for non-owner users (first-time or with a stored row)
the key is absent, and the owner record carries no last_reset key, so the
claimed shape (is_owner present for every user, false for non-owners,
together with a last-reset date) does not hold; the callers that read
status[is_owner] would raise KeyError for any non-owner. -/
theorem C9_is_owner_key :
    (can_user_generate dbU7 7 dOct).1.is_owner = none ∧
    (can_user_generate dbExhausted 7 dOct).1.is_owner = none ∧
    (can_user_generate dbOwnerOnly owner_id dOct).1
      = { can_generate := true, is_owner := some true, remaining := 999,
          last_reset := none } := by
  decide

theorem find_daily_after_remove (db : DB) (uid : Int) :
    (db.daily_usage.filter (fun q => q.user_id != uid)).find?
      (fun r => r.user_id == uid) = none := by
  rw [List.find?_eq_none]
  intro x hx
  rw [List.mem_filter] at hx
  simpa using hx.2

/-- C10: removing a non-owner user succeeds and deletes its daily_usage row
along with the authorization row, so the daily count reads 0 afterwards and
a later can_user_generate (for instance after re-adding the user) takes the
first-time branch: allowed with remaining 1. -/
theorem C10_remove_clears_daily :
    ∀ db uid r today, find_user db uid = some r → r.is_owner = false →
      uid ≠ owner_id →
      (remove_user db uid).1 = true ∧
      find_daily (remove_user db uid).2 uid = none ∧
      get_user_daily_count (remove_user db uid).2 uid = 0 ∧
      (can_user_generate (remove_user db uid).2 uid today).1.can_generate = true ∧
      (can_user_generate (remove_user db uid).2 uid today).1.remaining = 1 := by
  intro db uid r today hf ho hno
  have hru : remove_user db uid
      = (true, { db with
          users_allowed := db.users_allowed.filter (fun q => q.user_id != uid),
          daily_usage := db.daily_usage.filter (fun q => q.user_id != uid) }) := by
    simp [remove_user, hf, ho]
  have hfd : find_daily (remove_user db uid).2 uid = none := by
    rw [hru]
    exact find_daily_after_remove db uid
  have hbeq : (uid == owner_id) = false := by
    simpa using hno
  refine ⟨by rw [hru], hfd, ?_, ?_, ?_⟩
  · simp [get_user_daily_count, hfd]
  · simp [can_user_generate, hbeq, hfd]
  · simp [can_user_generate, hbeq, hfd]

/-- C10 witness: removing user 7, who generated once today, resets
everything: success, daily count 0, and a fresh quota on the next check. -/
theorem C10_witness :
    (remove_user dbExhausted 7).1 = true ∧
    get_user_daily_count (remove_user dbExhausted 7).2 7 = 0 ∧
    (can_user_generate (remove_user dbExhausted 7).2 7 dOct).1.can_generate = true ∧
    (can_user_generate (remove_user dbExhausted 7).2 7 dOct).1.remaining = 1 := by
  have h := C10_remove_clears_daily dbExhausted 7 u7Row dOct (by decide) rfl (by decide)
  exact ⟨h.1, h.2.2.1, h.2.2.2.1, h.2.2.2.2⟩
